import Mathlib

/-!
Verification of the DocsDB MCP document-server core
(`src/MCPserver/mcp_server.py`): the two-tier cache, cache-key
derivation, bounded-concurrency request pipeline of
`DocumentsAPIClient`, and the CRUD wrappers built on `_make_request`.

The embedding follows the Python source closely:

* Response bodies (`response.json()` dicts) flow through `_make_request`
  opaquely: they are cached and returned but never inspected.  We model a
  payload as its serialized JSON text, a `String`, which also makes the
  `json.dumps`/`json.loads` round trip between the Redis tier and the
  in-memory tier the identity.
* The in-memory `TTLCache` is modelled as an association list of entries
  carrying an absolute expiry instant, with the lazy expiry check of
  `cache_key in memory_cache` made explicit against a clock field `now`.
  The `CACHE_MAXSIZE` bound (LRU eviction) of the source is not modelled:
  no property below depends on eviction order.
* The Redis client is modelled by a `RedisMode` oracle per call: `absent`
  (`self.redis_client is None`), `ok` (operations succeed against the
  `redisStore` field of the state), or `failing` (every operation raises,
  which the source catches and logs).
* `asyncio.Semaphore` acquisition is a decrement of `semAvailable`; when
  no permit is available the Python coroutine suspends inside
  `async with self.semaphore`, which we model by the `blocked` outcome
  (state unchanged, no error raised).  Ghost counters `permitsAcquired`
  and `permitsReleased` record each acquisition and release.
* Prometheus metrics are counters in the state: `requestCount` for
  `REQUEST_COUNT.labels(method, endpoint).inc()`, `durationObs` for one
  observation of `REQUEST_DURATION.time()` (its `__exit__` observes on
  every path, including exceptional ones), `errorHttp`/`errorRequest`
  for `ERROR_COUNT`.  `originCalls` counts `self.client.request(...)`
  invocations, the origin-call counter of the specified scenarios.
* `httpx` raises `HTTPStatusError` from `raise_for_status()` on every
  non-2xx status, and `RequestError` for transport failures; timeouts
  (`httpx.TimeoutException`) are a subclass of `RequestError`, so the
  `OriginBehavior.requestError` constructor carries an `isTimeout` flag
  that the handler in `_make_request` never examines.
-/

/-- A query-parameter value as passed by the source (`page`, `per_page`
are ints, `term` is a string). -/
inductive PValue where
  | pint (n : Int)
  | pstr (s : String)
deriving DecidableEq, Repr

/-- Serialization of one parameter value inside `json.dumps` (string
escaping of exotic characters is elided; the source only passes plain
terms and numbers). -/
def pvalueDump : PValue → String
  | .pint n => toString n
  | .pstr s => "\"" ++ s ++ "\""

/-- Key order used by `json.dumps(params, sort_keys=True)`: compare the
keys of two entries. -/
def keyLe (a b : String × PValue) : Prop := a.1 ≤ b.1

instance : DecidableRel keyLe := fun a b => inferInstanceAs (Decidable (a.1 ≤ b.1))

instance : IsTotal (String × PValue) keyLe := ⟨fun a b => le_total a.1 b.1⟩

instance : IsTrans (String × PValue) keyLe := ⟨fun _ _ _ h h' => le_trans h h'⟩

/-- Model of `json.dumps(params, sort_keys=True)`: serialize the mapping with its
items sorted by key, using the default `", "` and `": "` separators.  A
Python dict never holds two items with the same key. -/
def dumpsSorted (ps : List (String × PValue)) : String :=
  let sorted := ps.insertionSort keyLe
  "\x7b" ++
    String.intercalate ", " (sorted.map fun p => "\"" ++ p.1 ++ "\": " ++ pvalueDump p.2) ++
    "\x7d"

/-- Model of the Python `str.upper()` method: uppercase every character. -/
def strUpper (s : String) : String := ⟨s.data.map Char.toUpper⟩

/-- Model of `DocumentsAPIClient._get_cache_key`: `mcp_doc:` followed by the
uppercased method, the url, and — when `params` is truthy, i.e. neither
`None` nor empty — the sorted JSON dump of the params, joined by `:`. -/
def get_cache_key (method url : String) (params : Option (List (String × PValue))) : String :=
  let keyParts := [strUpper method, url] ++
    (match params with
     | some ps => if ps.isEmpty then [] else [dumpsSorted ps]
     | none => [])
  "mcp_doc:" ++ String.intercalate ":" keyParts

/-- Two key-sorted association lists that are permutations of each other
and have pairwise-distinct keys are equal. -/
theorem sorted_nodupkeys_eq : ∀ {l₁ l₂ : List (String × PValue)},
    l₁.Perm l₂ → l₁.Sorted keyLe → l₂.Sorted keyLe →
    (l₁.map Prod.fst).Nodup → l₁ = l₂ := by
  intro l₁
  induction l₁ with
  | nil =>
    intro l₂ hp _ _ _
    exact (hp.nil_eq).symm ▸ rfl
  | cons a t₁ ih =>
    intro l₂ hp hs₁ hs₂ hnd
    cases l₂ with
    | nil => exact absurd hp.symm.nil_eq (by simp)
    | cons b t₂ =>
      have hab : a = b := by
        have hbmem : b ∈ a :: t₁ := hp.mem_iff.mpr (List.mem_cons_self b t₂)
        have hamem : a ∈ b :: t₂ := hp.mem_iff.mp (List.mem_cons_self a t₁)
        have hkey : a.1 = b.1 := by
          rcases List.mem_cons.mp hbmem with h | h
          · exact (congrArg Prod.fst h).symm
          · rcases List.mem_cons.mp hamem with h' | h'
            · exact congrArg Prod.fst h'
            · exact le_antisymm (List.rel_of_sorted_cons hs₁ b h)
                (List.rel_of_sorted_cons hs₂ a h')
        rcases List.mem_cons.mp hbmem with h | h
        · exact h.symm
        · exact absurd (hkey ▸ List.mem_map_of_mem Prod.fst h)
            (List.nodup_cons.mp hnd).1
      subst hab
      have htp : t₁.Perm t₂ := (List.perm_cons a).mp hp
      have := ih htp hs₁.of_cons hs₂.of_cons
        (by simpa using (List.nodup_cons.mp hnd).2)
      rw [this]

/-- Claim C6: cache-key derivation is deterministic and
order-independent — for every verb, path, and query-parameter mapping,
two parameter lists holding the same key-value pairs in different
insertion orders produce byte-identical cache keys. -/
theorem cache_key_order_independent (method url : String)
    (l₁ l₂ : List (String × PValue)) (hperm : l₁.Perm l₂)
    (hnd : (l₁.map Prod.fst).Nodup) :
    get_cache_key method url (some l₁) = get_cache_key method url (some l₂) := by
  have hsorteq : l₁.insertionSort keyLe = l₂.insertionSort keyLe := by
    apply sorted_nodupkeys_eq
    · exact (List.perm_insertionSort keyLe l₁).trans
        (hperm.trans (List.perm_insertionSort keyLe l₂).symm)
    · exact List.sorted_insertionSort keyLe l₁
    · exact List.sorted_insertionSort keyLe l₂
    · exact ((List.perm_insertionSort keyLe l₁).map Prod.fst).nodup_iff.mpr hnd
  have hemp : l₁.isEmpty = l₂.isEmpty := by
    cases l₁ <;> cases l₂ <;> simp_all [List.Perm.nil_eq, List.Perm.eq_nil]
  simp only [get_cache_key, dumpsSorted, hsorteq, hemp]

/-- Witness for C6 at the specified example `{a:1,b:2}` vs `{b:2,a:1}`. -/
theorem cache_key_order_independent_witness :
    get_cache_key "GET" "/documents" (some [("a", .pint 1), ("b", .pint 2)]) =
      get_cache_key "GET" "/documents" (some [("b", .pint 2), ("a", .pint 1)]) :=
  cache_key_order_independent "GET" "/documents"
    [("a", PValue.pint 1), ("b", PValue.pint 2)] [("b", PValue.pint 2), ("a", PValue.pint 1)]
    (List.Perm.swap ("b", PValue.pint 2) ("a", PValue.pint 1) []) (by decide)

/-- Value of `config.CACHE_TTL` (seconds). -/
def CACHE_TTL : Nat := 300

/-- Value of `config.MAX_CONCURRENT_REQUESTS`: capacity of the semaphore. -/
def MAX_CONCURRENT_REQUESTS : Nat := 100

/-- One entry of the in-memory `TTLCache`: the stored payload and the
absolute instant at which it expires. -/
structure CacheEntry where
  value : String
  expiry : Nat
deriving DecidableEq, Repr

/-- First-match association-list lookup. -/
def lookupKey {α : Type} : List (String × α) → String → Option α
  | [], _ => none
  | (k, v) :: rest, key => if key = k then some v else lookupKey rest key

/-- Association-list assignment `store[key] = v` (replaces any previous
binding). -/
def insertKey {α : Type} (l : List (String × α)) (key : String) (v : α) :
    List (String × α) :=
  (key, v) :: l.filter fun p => p.1 != key

/-- Model of `cache_key in memory_cache` followed by `memory_cache[cache_key]`:
`TTLCache` checks expiry lazily on read, so an expired entry reads as
absent. -/
def cacheLookup (now : Nat) (c : List (String × CacheEntry)) (key : String) :
    Option String :=
  match lookupKey c key with
  | some e => if now < e.expiry then some e.value else none
  | none => none

/-- Model of `memory_cache[key] = data`: a fresh entry lives for `CACHE_TTL`
seconds. -/
def cacheInsert (now : Nat) (c : List (String × CacheEntry)) (key value : String) :
    List (String × CacheEntry) :=
  insertKey c key ⟨value, now + CACHE_TTL⟩

/-- Oracle for the Redis tier on one call: `self.redis_client is None`,
reachable and answering from `redisStore`, or raising on every
operation. -/
inductive RedisMode where
  | absent
  | ok
  | failing
deriving DecidableEq, Repr

/-- The mutable state threaded through `DocumentsAPIClient`: the clock,
both cache tiers, the available-permit count of the semaphore, ghost permit
ledgers, and the Prometheus counters (plus `originCalls`, the number of
`self.client.request` invocations — the origin-call counter of the
specified end-to-end scenarios). -/
structure ServerState where
  now : Nat
  memoryCache : List (String × CacheEntry)
  redisStore : List (String × String)
  semAvailable : Nat
  permitsAcquired : Nat
  permitsReleased : Nat
  originCalls : Nat
  requestCount : List ((String × String) × Nat)
  durationObs : Nat
  errorHttp : Nat
  errorRequest : Nat
deriving DecidableEq, Repr

/-- Model of `DocumentsAPIClient._get_cached_response`: try the in-memory tier;
on a miss, try Redis when a client exists, absorbing any Redis exception
(logged only); a Redis hit is promoted into the local tier. -/
def get_cached_response (st : ServerState) (mode : RedisMode) (key : String) :
    Option String × ServerState :=
  match cacheLookup st.now st.memoryCache key with
  | some v => (some v, st)
  | none =>
    match mode with
    | .absent => (none, st)
    | .failing => (none, st)
    | .ok =>
      match lookupKey st.redisStore key with
      | some data =>
        (some data, { st with memoryCache := cacheInsert st.now st.memoryCache key data })
      | none => (none, st)

/-- Model of `DocumentsAPIClient._set_cached_response`: write the local tier
unconditionally; attempt a Redis `setex` when a client exists, absorbing
any Redis exception (logged only). -/
def set_cached_response (st : ServerState) (mode : RedisMode) (key data : String) :
    ServerState :=
  let st' := { st with memoryCache := cacheInsert st.now st.memoryCache key data }
  match mode with
  | .absent => st'
  | .failing => st'
  | .ok => { st' with redisStore := insertKey st'.redisStore key data }

/-- Model of `fastapi.HTTPException` as raised by the two `except`
branches. -/
structure HTTPException where
  statusCode : Nat
  detail : String
deriving DecidableEq, Repr

/-- Behavior of the origin on one `self.client.request` invocation: a
response with some status, error text and JSON body, or an
`httpx.RequestError`.  `httpx.TimeoutException` is a subclass of
`RequestError`, recorded by the `isTimeout` flag. -/
inductive OriginBehavior where
  | response (status : Nat) (text : String) (body : String)
  | requestError (isTimeout : Bool) (msg : String)
deriving DecidableEq, Repr

/-- Result of one `_make_request` coroutine step: a returned value, a
raised `HTTPException`, or suspension inside `async with self.semaphore`
because no permit is available. -/
inductive Outcome where
  | done (result : Except HTTPException String)
  | blocked
deriving Repr

/-- Model of the `REQUEST_COUNT` labelled-counter increment. -/
def bumpCounter (c : List ((String × String) × Nat)) (lbl : String × String) :
    List ((String × String) × Nat) :=
  (lbl, (match c.lookup lbl with | some n => n + 1 | none => 1)) ::
    c.filter fun p => p.1 != lbl

/-- The part of `_make_request` from `async with self.semaphore` on:
acquire a permit (or suspend), run the origin call under
`REQUEST_DURATION.time()` (whose exit observes a duration on every
path), `raise_for_status`, cache successful `GET` responses with status
200, bump `REQUEST_COUNT` on success, translate `httpx.HTTPStatusError`
and `httpx.RequestError` into `HTTPException`s, and release the permit
on every exit path (the `async with` exit). -/
def origin_phase (st : ServerState) (mode : RedisMode) (method endpoint cacheKey : String)
    (origin : OriginBehavior) : Outcome × ServerState :=
  if st.semAvailable = 0 then
    (.blocked, st)
  else
    let st1 := { st with
      semAvailable := st.semAvailable - 1,
      permitsAcquired := st.permitsAcquired + 1 }
    let st2 := { st1 with originCalls := st1.originCalls + 1 }
    let resSt : Except HTTPException String × ServerState :=
      match origin with
      | .response status text body =>
        if 200 ≤ status ∧ status < 300 then
          let stc := if method = "GET" ∧ status = 200
            then set_cached_response st2 mode cacheKey body else st2
          (Except.ok body,
           { stc with
              durationObs := stc.durationObs + 1,
              requestCount := bumpCounter stc.requestCount (method, endpoint) })
        else
          (Except.error ⟨status, "API Error: " ++ text⟩,
           { st2 with durationObs := st2.durationObs + 1, errorHttp := st2.errorHttp + 1 })
      | .requestError _ msg =>
        (Except.error ⟨503, "Service unavailable: " ++ msg⟩,
         { st2 with durationObs := st2.durationObs + 1, errorRequest := st2.errorRequest + 1 })
    (.done resSt.1, { resSt.2 with
      semAvailable := resSt.2.semAvailable + 1,
      permitsReleased := resSt.2.permitsReleased + 1 })

/-- Model of `DocumentsAPIClient._make_request`: derive the cache key; for `GET`,
try the cache first and return a hit immediately; otherwise run the
origin phase under the semaphore. -/
def make_request (st : ServerState) (mode : RedisMode) (method endpoint : String)
    (params : Option (List (String × PValue))) (origin : OriginBehavior) :
    Outcome × ServerState :=
  let cacheKey := get_cache_key method endpoint params
  if method = "GET" then
    match get_cached_response st mode cacheKey with
    | (some v, st') => (.done (.ok v), st')
    | (none, st') => origin_phase st' mode method endpoint cacheKey origin
  else
    origin_phase st mode method endpoint cacheKey origin

/-- Model of `DocumentsAPIClient.create_document` (`POST /documents`; the request
body does not influence the pipeline). -/
def create_document (st : ServerState) (mode : RedisMode) (_body : String)
    (origin : OriginBehavior) : Outcome × ServerState :=
  make_request st mode "POST" "/documents" none origin

/-- Model of `DocumentsAPIClient.get_document` (`GET /documents/{doc_id}`). -/
def get_document (st : ServerState) (mode : RedisMode) (docId : String)
    (origin : OriginBehavior) : Outcome × ServerState :=
  make_request st mode "GET" ("/documents/" ++ docId) none origin

/-- Model of `DocumentsAPIClient.update_document` (`PUT /documents/{doc_id}`). -/
def update_document (st : ServerState) (mode : RedisMode) (docId : String)
    (_body : String) (origin : OriginBehavior) : Outcome × ServerState :=
  make_request st mode "PUT" ("/documents/" ++ docId) none origin

/-- Model of `DocumentsAPIClient.delete_document` (`DELETE /documents/{doc_id}`). -/
def delete_document (st : ServerState) (mode : RedisMode) (docId : String)
    (origin : OriginBehavior) : Outcome × ServerState :=
  make_request st mode "DELETE" ("/documents/" ++ docId) none origin

/-- Model of `DocumentsAPIClient.get_documents` (`GET /documents?page&per_page`). -/
def get_documents (st : ServerState) (mode : RedisMode) (page perPage : Int)
    (origin : OriginBehavior) : Outcome × ServerState :=
  make_request st mode "GET" "/documents"
    (some [("page", PValue.pint page), ("per_page", PValue.pint perPage)]) origin

/-- One request of a workload: everything `_make_request` consumes. -/
structure Req where
  mode : RedisMode
  method : String
  endpoint : String
  params : Option (List (String × PValue))
  origin : OriginBehavior

/-- Run a sequence of `_make_request` calls to completion, threading the
state. -/
def run_sequence (st : ServerState) : List Req → ServerState
  | [] => st
  | r :: rs => run_sequence (make_request st r.mode r.method r.endpoint r.params r.origin).2 rs

/-- Lemma: `_get_cached_response` touches only the in-memory tier of the state
(a Redis hit is promoted into it); every other field survives. -/
theorem get_cached_response_frame (st : ServerState) (mode : RedisMode) (key : String) :
    ∃ mc, (get_cached_response st mode key).2 = { st with memoryCache := mc } := by
  unfold get_cached_response
  split
  · exact ⟨st.memoryCache, rfl⟩
  · split
    · exact ⟨st.memoryCache, rfl⟩
    · exact ⟨st.memoryCache, rfl⟩
    · split
      · exact ⟨_, rfl⟩
      · exact ⟨st.memoryCache, rfl⟩

/-- Lemma: `_set_cached_response` touches only the two cache tiers. -/
theorem set_cached_response_frame (st : ServerState) (mode : RedisMode) (key data : String) :
    ∃ mc rs, set_cached_response st mode key data =
      { st with memoryCache := mc, redisStore := rs } := by
  unfold set_cached_response
  cases mode with
  | absent => exact ⟨_, st.redisStore, rfl⟩
  | ok => exact ⟨_, _, rfl⟩
  | failing => exact ⟨_, st.redisStore, rfl⟩

/-- Lemma: a hit in the in-memory tier of `_get_cached_response` returns the cached
value with the state untouched. -/
theorem get_cached_response_hit {st : ServerState} {mode : RedisMode} {key v : String}
    (h : cacheLookup st.now st.memoryCache key = some v) :
    get_cached_response st mode key = (some v, st) := by
  unfold get_cached_response
  rw [h]

/-- Permit accounting of one `origin_phase`: the available-permit count
is restored, and the acquisition ledger advances exactly as much as the
release ledger (by one when a permit was taken, by zero when the caller
suspended). -/
theorem origin_phase_permits (st : ServerState) (mode : RedisMode)
    (method endpoint key : String) (origin : OriginBehavior) :
    (origin_phase st mode method endpoint key origin).2.semAvailable = st.semAvailable ∧
    (origin_phase st mode method endpoint key origin).2.permitsAcquired + st.permitsReleased
      = (origin_phase st mode method endpoint key origin).2.permitsReleased
        + st.permitsAcquired ∧
    st.permitsAcquired ≤ (origin_phase st mode method endpoint key origin).2.permitsAcquired ∧
    (origin_phase st mode method endpoint key origin).2.permitsAcquired
      ≤ st.permitsAcquired + 1 := by
  unfold origin_phase
  split
  · refine ⟨?_, ?_, ?_, ?_⟩ <;> first | omega | (simp; omega) | simp
  · rename_i h
    cases origin with
    | response status text body =>
      by_cases h2 : 200 ≤ status ∧ status < 300
      · by_cases h3 : method = "GET" ∧ status = 200
        · obtain ⟨mc, rs, hset⟩ := set_cached_response_frame
            { st with semAvailable := st.semAvailable - 1,
                      permitsAcquired := st.permitsAcquired + 1,
                      originCalls := st.originCalls + 1 } mode key body
          simp only [if_pos h2, if_pos h3]
          rw [hset]
          refine ⟨?_, ?_, ?_, ?_⟩ <;> first | omega | (simp; omega) | simp
        · simp only [if_pos h2, if_neg h3]
          refine ⟨?_, ?_, ?_, ?_⟩ <;> omega
      · simp only [if_neg h2]
        refine ⟨?_, ?_, ?_, ?_⟩ <;> omega
    | requestError b msg =>
      refine ⟨?_, ?_, ?_, ?_⟩ <;> first | omega | (simp; omega) | simp

/-- Permit accounting of one full `_make_request` call (a `GET` cache
hit takes no permit at all). -/
theorem make_request_permits (st : ServerState) (mode : RedisMode) (method endpoint : String)
    (params : Option (List (String × PValue))) (origin : OriginBehavior) :
    (make_request st mode method endpoint params origin).2.semAvailable = st.semAvailable ∧
    (make_request st mode method endpoint params origin).2.permitsAcquired + st.permitsReleased
      = (make_request st mode method endpoint params origin).2.permitsReleased
        + st.permitsAcquired ∧
    st.permitsAcquired ≤ (make_request st mode method endpoint params origin).2.permitsAcquired ∧
    (make_request st mode method endpoint params origin).2.permitsAcquired
      ≤ st.permitsAcquired + 1 := by
  unfold make_request
  by_cases hm : method = "GET"
  · simp only [if_pos hm]
    obtain ⟨mc, hg⟩ := get_cached_response_frame st mode (get_cache_key method endpoint params)
    rcases hres : get_cached_response st mode (get_cache_key method endpoint params) with ⟨ov, st2⟩
    rw [hres] at hg
    cases ov with
    | some v =>
      rw [hg]
      refine ⟨?_, ?_, ?_, ?_⟩ <;> first | omega | (simp; omega) | simp
    | none =>
      dsimp only at hg ⊢
      rw [hg]
      have hp := origin_phase_permits { st with memoryCache := mc } mode method endpoint
        (get_cache_key method endpoint params) origin
      simpa using hp
  · simp only [if_neg hm]
    exact origin_phase_permits st mode method endpoint (get_cache_key method endpoint params) origin

/-- Claim C2: every `_make_request` that acquires a concurrency permit
releases it exactly once on every exit path (success, origin HTTP
error, transport error or timeout), so a single call restores the
available count of the semaphore and advances the acquire ledger exactly as
much as the release ledger (by at most one); consequently, after any
sequence of calls completes, the outstanding-permit count
(acquired − released) is back to its initial value and the semaphore is
back at its initial capacity. -/
theorem permit_release_balanced :
    (∀ st mode method endpoint params origin,
        (make_request st mode method endpoint params origin).2.semAvailable
          = st.semAvailable ∧
        (make_request st mode method endpoint params origin).2.permitsAcquired
            + st.permitsReleased
          = (make_request st mode method endpoint params origin).2.permitsReleased
            + st.permitsAcquired ∧
        (make_request st mode method endpoint params origin).2.permitsAcquired
          ≤ st.permitsAcquired + 1) ∧
    (∀ st reqs, (run_sequence st reqs).semAvailable = st.semAvailable ∧
        (run_sequence st reqs).permitsAcquired + st.permitsReleased
          = (run_sequence st reqs).permitsReleased + st.permitsAcquired) := by
  constructor
  · intro st mode method endpoint params origin
    have h := make_request_permits st mode method endpoint params origin
    exact ⟨h.1, h.2.1, h.2.2.2⟩
  · intro st reqs
    induction reqs generalizing st with
    | nil => exact ⟨rfl, by simp only [run_sequence]; omega⟩
    | cons r rs ih =>
      have h1 := make_request_permits st r.mode r.method r.endpoint r.params r.origin
      have h2 := ih (make_request st r.mode r.method r.endpoint r.params r.origin).2
      simp only [run_sequence]
      exact ⟨by rw [h2.1, h1.1], by omega⟩

/-- The cache-population condition of `_make_request`: only a `GET`
whose origin response has status 200 is written to the cache. -/
def is_cacheable (method : String) : OriginBehavior → Bool
  | .response status _ _ => method == "GET" && status == 200
  | .requestError _ _ => false

/-- A non-`GET` never satisfies the cache-population condition. -/
theorem is_cacheable_of_ne_get {method : String} (h : method ≠ "GET")
    (origin : OriginBehavior) : is_cacheable method origin = false := by
  cases origin with
  | response status text body => simp [is_cacheable, h]
  | requestError b msg => rfl

/-- Frame facts of one `origin_phase`: the clock is untouched; when the
cache-population condition fails, both cache tiers are untouched; when a
permit is available, exactly one origin call is issued. -/
theorem origin_phase_frame (st : ServerState) (mode : RedisMode)
    (method endpoint key : String) (origin : OriginBehavior) :
    (origin_phase st mode method endpoint key origin).2.now = st.now ∧
    (is_cacheable method origin = false →
      (origin_phase st mode method endpoint key origin).2.memoryCache = st.memoryCache ∧
      (origin_phase st mode method endpoint key origin).2.redisStore = st.redisStore) ∧
    (st.semAvailable ≠ 0 →
      (origin_phase st mode method endpoint key origin).2.originCalls = st.originCalls + 1) := by
  unfold origin_phase
  split
  · rename_i h0
    refine ⟨rfl, fun _ => ⟨rfl, rfl⟩, fun hne => absurd h0 hne⟩
  · rename_i h0
    cases origin with
    | response status text body =>
      by_cases h2 : 200 ≤ status ∧ status < 300
      · by_cases h3 : method = "GET" ∧ status = 200
        · obtain ⟨mc, rs, hset⟩ := set_cached_response_frame
            { st with semAvailable := st.semAvailable - 1,
                      permitsAcquired := st.permitsAcquired + 1,
                      originCalls := st.originCalls + 1 } mode key body
          simp only [if_pos h2, if_pos h3]
          rw [hset]
          refine ⟨rfl, fun hc => ?_, fun _ => rfl⟩
          exact absurd hc (by simp [is_cacheable, h3.1, h3.2])
        · simp only [if_pos h2, if_neg h3]
          refine ⟨?_, ?_, ?_⟩ <;> simp
      · simp only [if_neg h2]
        refine ⟨?_, ?_, ?_⟩ <;> simp
    | requestError b msg =>
      exact ⟨rfl, fun _ => ⟨rfl, rfl⟩, fun _ => rfl⟩

/-- For a non-`GET`, `_make_request` skips the cache lookup and goes
straight to the semaphore-guarded origin phase. -/
theorem make_request_non_get {method : String} (h : method ≠ "GET")
    (st : ServerState) (mode : RedisMode) (endpoint : String)
    (params : Option (List (String × PValue))) (origin : OriginBehavior) :
    make_request st mode method endpoint params origin
      = origin_phase st mode method endpoint (get_cache_key method endpoint params) origin := by
  unfold make_request
  rw [if_neg h]

/-- A miss in `_get_cached_response` leaves the state untouched. -/
theorem get_cached_response_miss {st : ServerState} {mode : RedisMode} {key : String}
    (h : (get_cached_response st mode key).1 = none) :
    get_cached_response st mode key = (none, st) := by
  unfold get_cached_response at h ⊢
  rcases hc : cacheLookup st.now st.memoryCache key with _ | v
  · rw [hc] at h
    cases mode with
    | absent => rfl
    | failing => rfl
    | ok =>
      rcases hr : lookupKey st.redisStore key with _ | d
      · rfl
      · rw [hr] at h
        exact Option.noConfusion h
  · rw [hc] at h
    exact Option.noConfusion h

/-- Lemma: `_set_cached_response` always writes the in-memory tier and never
advances the clock, whatever the Redis tier does. -/
theorem set_cached_response_memory (st : ServerState) (mode : RedisMode) (key v : String) :
    (set_cached_response st mode key v).memoryCache = cacheInsert st.now st.memoryCache key v ∧
    (set_cached_response st mode key v).now = st.now := by
  cases mode <;> exact ⟨rfl, rfl⟩

/-- A freshly inserted entry is found by an immediate lookup at the same
instant (its TTL of `CACHE_TTL = 300` seconds has not elapsed). -/
theorem cacheLookup_insert (now : Nat) (c : List (String × CacheEntry)) (key v : String) :
    cacheLookup now (cacheInsert now c key v) key = some v := by
  simp [cacheLookup, cacheInsert, insertKey, lookupKey, CACHE_TTL]

/-- Claim C7: for every key K and value V, populating the cache with
(K, V) and then immediately looking K up on the same node — no
intervening invalidation and no TTL expiry, i.e. at the same instant —
returns V (whatever the distributed tier does on either call). -/
theorem populate_then_lookup (st : ServerState) (mode₁ mode₂ : RedisMode) (key v : String) :
    get_cached_response (set_cached_response st mode₁ key v) mode₂ key
      = (some v, set_cached_response st mode₁ key v) := by
  apply get_cached_response_hit
  have hm := set_cached_response_memory st mode₁ key v
  rw [hm.1, hm.2]
  exact cacheLookup_insert st.now st.memoryCache key v

/-- With no usable Redis client (absent, or raising and caught), the
cache lookup is exactly the local lookup and the state is untouched. -/
theorem get_cached_response_local_only (st : ServerState) (mode : RedisMode) (key : String)
    (h : mode ≠ RedisMode.ok) :
    get_cached_response st mode key = (cacheLookup st.now st.memoryCache key, st) := by
  unfold get_cached_response
  rcases hc : cacheLookup st.now st.memoryCache key with _ | v
  · cases mode with
    | absent => rfl
    | failing => rfl
    | ok => exact absurd rfl h
  · rfl

/-- A failing Redis tier behaves exactly like an absent one throughout
the origin phase (the only Redis operation there is the absorbed
`setex`). -/
theorem origin_phase_mode_indep (st : ServerState) (method endpoint key : String)
    (origin : OriginBehavior) :
    origin_phase st .failing method endpoint key origin
      = origin_phase st .absent method endpoint key origin := rfl

/-- Claim C8: distributed-cache unavailability or failure on get/set is
never surfaced: a lookup with a raising Redis client completes and
returns exactly the answer of the local tier with the state untouched; a
population with a raising Redis client still writes the local tier,
exactly as when no client exists; and the whole `_make_request` pipeline
behaves identically under a raising client and an absent one — no
`CacheUnavailable`-style error ever escapes the cache layer. -/
theorem distributed_failure_absorbed :
    (∀ st key, get_cached_response st .failing key
        = (cacheLookup st.now st.memoryCache key, st)) ∧
    (∀ st key v, set_cached_response st .failing key v = set_cached_response st .absent key v ∧
        (set_cached_response st .failing key v).memoryCache
          = cacheInsert st.now st.memoryCache key v) ∧
    (∀ st method endpoint params origin,
        make_request st .failing method endpoint params origin
          = make_request st .absent method endpoint params origin) := by
  refine ⟨?_, ?_, ?_⟩
  · intro st key
    exact get_cached_response_local_only st .failing key (by simp)
  · intro st key v
    exact ⟨rfl, rfl⟩
  · intro st method endpoint params origin
    rfl

/-- Claim C10: a `GET` served from the cache returns the cached value
immediately — no permit is acquired, no origin call is made, and neither
`REQUEST_COUNT` nor `REQUEST_DURATION` is touched (the lookup may at
most promote a Redis hit into the local tier). -/
theorem cache_hit_no_side_effects (st : ServerState) (mode : RedisMode) (endpoint : String)
    (params : Option (List (String × PValue))) (origin : OriginBehavior) (v : String)
    (st' : ServerState)
    (h : get_cached_response st mode (get_cache_key "GET" endpoint params) = (some v, st')) :
    make_request st mode "GET" endpoint params origin = (Outcome.done (Except.ok v), st') ∧
    st'.semAvailable = st.semAvailable ∧
    st'.permitsAcquired = st.permitsAcquired ∧
    st'.permitsReleased = st.permitsReleased ∧
    st'.originCalls = st.originCalls ∧
    st'.requestCount = st.requestCount ∧
    st'.durationObs = st.durationObs := by
  obtain ⟨mc, hg⟩ := get_cached_response_frame st mode (get_cache_key "GET" endpoint params)
  rw [h] at hg
  dsimp only at hg
  subst hg
  refine ⟨?_, rfl, rfl, rfl, rfl, rfl, rfl⟩
  unfold make_request
  rw [if_pos rfl, h]

/-- Starting state of the client: empty caches, clock at 0, all permits
available, all counters at 0. -/
def baseState : ServerState :=
  { now := 0, memoryCache := [], redisStore := [], semAvailable := MAX_CONCURRENT_REQUESTS,
    permitsAcquired := 0, permitsReleased := 0, originCalls := 0, requestCount := [],
    durationObs := 0, errorHttp := 0, errorRequest := 0 }

/-- The single-document cache key of document `123`. -/
def key123 : String := "mcp_doc:GET:/documents/123"

/-- A stale serialized copy of document `123` with title `T`. -/
def staleDoc : String := "\x7b\"id\": \"123\", \"title\": \"T\"\x7d"

/-- A state in which the response for `GET /documents/123` is cached,
unexpired, in both tiers. -/
def staleState : ServerState :=
  { baseState with memoryCache := [(key123, ⟨staleDoc, CACHE_TTL⟩)],
                   redisStore := [(key123, staleDoc)] }

/-- Witness for C10: a cache hit on document 123 returns the cached
payload and changes nothing. -/
theorem cache_hit_no_side_effects_witness :
    make_request staleState .absent "GET" "/documents/123" none
        (OriginBehavior.response 200 "" "fresh")
      = (Outcome.done (Except.ok staleDoc), staleState) ∧
    staleState.semAvailable = staleState.semAvailable ∧
    staleState.permitsAcquired = staleState.permitsAcquired ∧
    staleState.permitsReleased = staleState.permitsReleased ∧
    staleState.originCalls = staleState.originCalls ∧
    staleState.requestCount = staleState.requestCount ∧
    staleState.durationObs = staleState.durationObs :=
  cache_hit_no_side_effects staleState .absent "/documents/123" none
    (OriginBehavior.response 200 "" "fresh") staleDoc staleState (by decide)

/-- Claim C9: the cache is consulted before the origin only for `GET`
(every other method goes straight to the semaphore-guarded origin
phase); whenever the cache-population condition (method is `GET` and
status is 200) fails — any mutating method, any non-2xx status, any
transport failure — neither cache tier is written; and whenever a permit
is available the origin is actually called, exactly once. -/
theorem only_success_get_cached :
    (∀ st mode method endpoint params origin, method ≠ "GET" →
        make_request st mode method endpoint params origin
          = origin_phase st mode method endpoint (get_cache_key method endpoint params) origin) ∧
    (∀ st mode method endpoint key origin, is_cacheable method origin = false →
        (origin_phase st mode method endpoint key origin).2.memoryCache = st.memoryCache ∧
        (origin_phase st mode method endpoint key origin).2.redisStore = st.redisStore) ∧
    (∀ st mode method endpoint key origin, st.semAvailable ≠ 0 →
        (origin_phase st mode method endpoint key origin).2.originCalls
          = st.originCalls + 1) := by
  refine ⟨?_, ?_, ?_⟩
  · intro st mode method endpoint params origin h
    exact make_request_non_get h st mode endpoint params origin
  · intro st mode method endpoint key origin h
    exact (origin_phase_frame st mode method endpoint key origin).2.1 h
  · intro st mode method endpoint key origin h
    exact (origin_phase_frame st mode method endpoint key origin).2.2 h

/-- Witness for C9 on a `PUT` with a 200 response: the lookup is
skipped, neither tier is written, and one origin call is made. -/
theorem only_success_get_cached_witness :
    (make_request staleState .ok "PUT" "/documents/123" none
        (OriginBehavior.response 200 "" "fresh")
      = origin_phase staleState .ok "PUT" "/documents/123"
          (get_cache_key "PUT" "/documents/123" none)
          (OriginBehavior.response 200 "" "fresh")) ∧
    (origin_phase staleState .ok "PUT" "/documents/123" key123
        (OriginBehavior.response 200 "" "fresh")).2.memoryCache = staleState.memoryCache ∧
    (origin_phase staleState .ok "PUT" "/documents/123" key123
        (OriginBehavior.response 200 "" "fresh")).2.redisStore = staleState.redisStore ∧
    (origin_phase staleState .ok "PUT" "/documents/123" key123
        (OriginBehavior.response 200 "" "fresh")).2.originCalls
      = staleState.originCalls + 1 :=
  ⟨only_success_get_cached.1 staleState .ok "PUT" "/documents/123" none
      (OriginBehavior.response 200 "" "fresh") (by decide),
   (only_success_get_cached.2.1 staleState .ok "PUT" "/documents/123" key123
      (OriginBehavior.response 200 "" "fresh") (by decide)).1,
   (only_success_get_cached.2.1 staleState .ok "PUT" "/documents/123" key123
      (OriginBehavior.response 200 "" "fresh") (by decide)).2,
   only_success_get_cached.2.2 staleState .ok "PUT" "/documents/123" key123
      (OriginBehavior.response 200 "" "fresh") (by decide)⟩

/-- A fresh serialized copy of document `123` with title `T2`. -/
def freshDoc : String := "\x7b\"id\": \"123\", \"title\": \"T2\"\x7d"

/-- A successful `update_document("123", {title:"T2"})` run from the
state in which the old document is cached in both tiers. -/
def updateRun : Outcome × ServerState :=
  update_document staleState .ok "123" "\x7b\"title\": \"T2\"\x7d"
    (OriginBehavior.response 200 "" freshDoc)

/-- The `get_document("123")` that follows the successful update. -/
def getAfterUpdate : Outcome × ServerState :=
  get_document updateRun.2 .ok "123" (OriginBehavior.response 200 "" freshDoc)

/-- Counterexample to C1: the update succeeds, yet the cache entry for
document 123 survives in both tiers, and the next `get_document("123")`
returns the stale cached payload without issuing a new origin call. -/
theorem update_not_invalidated_cex :
    updateRun.1 = Outcome.done (Except.ok freshDoc) ∧
    lookupKey updateRun.2.memoryCache key123 = some ⟨staleDoc, CACHE_TTL⟩ ∧
    lookupKey updateRun.2.redisStore key123 = some staleDoc ∧
    getAfterUpdate.1 = Outcome.done (Except.ok staleDoc) ∧
    getAfterUpdate.2.originCalls = updateRun.2.originCalls :=
  ⟨rfl, by decide, by decide, rfl, by decide⟩

/-- Claim C1 as amended: `update_document` and `delete_document` never
invalidate anything — they leave both cache tiers (and the clock)
exactly as they were — and therefore a `get_document(X)` whose
single-document key is still cached returns the cached (possibly stale)
value with the state untouched, issuing no origin call; staleness is
bounded only by the TTL. -/
theorem mutations_never_invalidate :
    (∀ st mode docId body origin,
        (update_document st mode docId body origin).2.memoryCache = st.memoryCache ∧
        (update_document st mode docId body origin).2.redisStore = st.redisStore ∧
        (update_document st mode docId body origin).2.now = st.now) ∧
    (∀ st mode docId origin,
        (delete_document st mode docId origin).2.memoryCache = st.memoryCache ∧
        (delete_document st mode docId origin).2.redisStore = st.redisStore ∧
        (delete_document st mode docId origin).2.now = st.now) ∧
    (∀ st mode docId origin v,
        cacheLookup st.now st.memoryCache
            (get_cache_key "GET" ("/documents/" ++ docId) none) = some v →
        get_document st mode docId origin = (Outcome.done (Except.ok v), st)) := by
  refine ⟨?_, ?_, ?_⟩
  · intro st mode docId body origin
    unfold update_document
    rw [make_request_non_get (show ("PUT" : String) ≠ "GET" by decide) st mode
      ("/documents/" ++ docId) none origin]
    have hf := origin_phase_frame st mode "PUT" ("/documents/" ++ docId)
      (get_cache_key "PUT" ("/documents/" ++ docId) none) origin
    have hc := hf.2.1 (is_cacheable_of_ne_get (by decide) origin)
    exact ⟨hc.1, hc.2, hf.1⟩
  · intro st mode docId origin
    unfold delete_document
    rw [make_request_non_get (show ("DELETE" : String) ≠ "GET" by decide) st mode
      ("/documents/" ++ docId) none origin]
    have hf := origin_phase_frame st mode "DELETE" ("/documents/" ++ docId)
      (get_cache_key "DELETE" ("/documents/" ++ docId) none) origin
    have hc := hf.2.1 (is_cacheable_of_ne_get (by decide) origin)
    exact ⟨hc.1, hc.2, hf.1⟩
  · intro st mode docId origin v h
    unfold get_document make_request
    rw [if_pos rfl, get_cached_response_hit h]

/-- Witness for the amended C1: from the stale-cache state, the get
after the (never-invalidating) update returns the stale payload. -/
theorem mutations_never_invalidate_witness :
    get_document staleState .ok "123" (OriginBehavior.response 200 "" freshDoc)
      = (Outcome.done (Except.ok staleDoc), staleState) :=
  mutations_never_invalidate.2.2 staleState .ok "123"
    (OriginBehavior.response 200 "" freshDoc) staleDoc (by decide)

/-- A state with every concurrency permit in use. -/
def noPermitState : ServerState := { baseState with semAvailable := 0 }

/-- Counterexample to C3: with every permit in use, a request suspends
inside `async with self.semaphore` (the `blocked` outcome, state
untouched) — no `Busy`/`Timeout` failure is produced, because
`asyncio.Semaphore.acquire` carries no deadline;
`config.REQUEST_TIMEOUT` only bounds the HTTP call itself. -/
theorem acquisition_no_deadline_cex :
    make_request noPermitState .absent "POST" "/documents" none
        (OriginBehavior.response 201 "" "doc")
      = (Outcome.blocked, noPermitState) := rfl

/-- Claim C3 as amended: when all permits are in use, any request that
reaches the semaphore — a mutating request, or a `GET` that missed the
cache — suspends awaiting a permit, with no deadline and no
`Busy`/`Timeout` condition, leaving the state untouched. -/
theorem exhausted_gate_suspends :
    (∀ st mode method endpoint params origin, st.semAvailable = 0 → method ≠ "GET" →
        make_request st mode method endpoint params origin = (Outcome.blocked, st)) ∧
    (∀ st mode endpoint params origin, st.semAvailable = 0 →
        (get_cached_response st mode (get_cache_key "GET" endpoint params)).1 = none →
        make_request st mode "GET" endpoint params origin = (Outcome.blocked, st)) := by
  constructor
  · intro st mode method endpoint params origin h0 hm
    rw [make_request_non_get hm]
    unfold origin_phase
    rw [if_pos h0]
  · intro st mode endpoint params origin h0 hmiss
    unfold make_request
    rw [if_pos rfl, get_cached_response_miss hmiss]
    show origin_phase st mode "GET" endpoint (get_cache_key "GET" endpoint params) origin = _
    unfold origin_phase
    rw [if_pos h0]

/-- Witness for the amended C3 at a concrete exhausted-gate state. -/
theorem exhausted_gate_suspends_witness :
    make_request noPermitState .ok "PUT" "/documents/123" none
        (OriginBehavior.response 200 "" "doc")
      = (Outcome.blocked, noPermitState) :=
  exhausted_gate_suspends.1 noPermitState .ok "PUT" "/documents/123" none
    (OriginBehavior.response 200 "" "doc") (by decide) (by decide)

/-- Counterexample to C4: an origin timeout and a connection-level
failure with the same exception text produce byte-for-byte the same
result and state — `httpx.TimeoutException` is a subclass of
`httpx.RequestError`, so both land in the same `except` branch and
become `HTTPException(503, "Service unavailable: ...")`; the caller
cannot tell them apart. -/
theorem timeout_network_same_condition_cex :
    make_request baseState .absent "GET" "/documents/123" none
        (OriginBehavior.requestError true "timed out")
      = make_request baseState .absent "GET" "/documents/123" none
        (OriginBehavior.requestError false "timed out") ∧
    (make_request baseState .absent "GET" "/documents/123" none
        (OriginBehavior.requestError true "timed out")).1
      = Outcome.done (Except.error ⟨503, "Service unavailable: timed out"⟩) :=
  ⟨rfl, rfl⟩

/-- Claim C4 as amended: timeouts and connection-level failures surface
as one and the same condition — the handler never inspects the timeout
flag, and both become `HTTPException` with status 503 and detail
`Service unavailable: ...` — while a non-2xx origin response surfaces
as `HTTPException` with the origin status and detail
`API Error: ...`, a condition never equal to the transport one. -/
theorem error_conditions :
    (∀ st mode method endpoint key b₁ b₂ msg,
        origin_phase st mode method endpoint key (OriginBehavior.requestError b₁ msg)
          = origin_phase st mode method endpoint key (OriginBehavior.requestError b₂ msg)) ∧
    (∀ st mode method endpoint key b msg, st.semAvailable ≠ 0 →
        (origin_phase st mode method endpoint key (OriginBehavior.requestError b msg)).1
          = Outcome.done (Except.error ⟨503, "Service unavailable: " ++ msg⟩)) ∧
    (∀ st mode method endpoint key status text body, st.semAvailable ≠ 0 →
        ¬(200 ≤ status ∧ status < 300) →
        (origin_phase st mode method endpoint key
            (OriginBehavior.response status text body)).1
          = Outcome.done (Except.error ⟨status, "API Error: " ++ text⟩)) ∧
    (∀ status text msg,
        (⟨status, "API Error: " ++ text⟩ : HTTPException)
          ≠ ⟨503, "Service unavailable: " ++ msg⟩) := by
  refine ⟨?_, ?_, ?_, ?_⟩
  · intro st mode method endpoint key b₁ b₂ msg
    rfl
  · intro st mode method endpoint key b msg h
    unfold origin_phase
    rw [if_neg h]
  · intro st mode method endpoint key status text body h h2
    unfold origin_phase
    rw [if_neg h]
    simp only [if_neg h2]
  · intro status text msg h
    have h' : "API Error: " ++ text = "Service unavailable: " ++ msg :=
      congrArg HTTPException.detail h
    have h4 : some 'A' = some 'S' := by
      calc some 'A' = ("API Error: " ++ text).data.head? := rfl
        _ = ("Service unavailable: " ++ msg).data.head? := by rw [h']
        _ = some 'S' := rfl
    exact absurd (Option.some.inj h4) (by decide)

/-- Witness for the amended C4: a timeout, a 404 origin error, and
their distinctness, at concrete inputs. -/
theorem error_conditions_witness :
    (origin_phase baseState .absent "GET" "/documents/123" key123
        (OriginBehavior.requestError true "x")).1
      = Outcome.done (Except.error ⟨503, "Service unavailable: x"⟩) ∧
    (origin_phase baseState .absent "GET" "/documents/123" key123
        (OriginBehavior.response 404 "nf" "")).1
      = Outcome.done (Except.error ⟨404, "API Error: nf"⟩) ∧
    (⟨404, "API Error: nf"⟩ : HTTPException) ≠ ⟨503, "Service unavailable: x"⟩ :=
  ⟨error_conditions.2.1 baseState .absent "GET" "/documents/123" key123 true "x" (by decide),
   error_conditions.2.2.1 baseState .absent "GET" "/documents/123" key123 404 "nf" ""
     (by decide) (by decide),
   error_conditions.2.2.2 404 "nf" "x"⟩

/-- The serialized document the origin returns for the create. -/
def createdDoc : String := "\x7b\"id\": \"123\", \"title\": \"T\", \"content\": \"C\"\x7d"

/-- A successful `create_document({title:"T", content:"C"})` run from
the empty starting state. -/
def createRun : Outcome × ServerState :=
  create_document baseState .absent "\x7b\"title\": \"T\", \"content\": \"C\"\x7d"
    (OriginBehavior.response 201 "" createdDoc)

/-- The `get_document("123")` that follows the successful create. -/
def getAfterCreate : Outcome × ServerState :=
  get_document createRun.2 .absent "123" (OriginBehavior.response 200 "" createdDoc)

/-- Counterexample to C5: the create succeeds but caches nothing (the
`POST` response is not a cacheable `GET`), so the subsequent
`get_document("123")` misses the cache and issues a second origin call —
the origin-call counter ends at 2, not 1. -/
theorem create_then_get_two_calls_cex :
    createRun.1 = Outcome.done (Except.ok createdDoc) ∧
    createRun.2.memoryCache = [] ∧
    getAfterCreate.2.originCalls = 2 ∧
    ¬ getAfterCreate.2.originCalls = 1 :=
  ⟨rfl, rfl, by decide, by decide⟩

/-- Claim C5 as amended: a successful `create_document` populates
neither cache tier, so a subsequent `get_document` for the created id
finds nothing cached and issues its own origin call — two origin calls
in total across the create and the get. -/
theorem create_not_cached :
    (∀ st mode body origin,
        (create_document st mode body origin).2.memoryCache = st.memoryCache ∧
        (create_document st mode body origin).2.redisStore = st.redisStore ∧
        (create_document st mode body origin).2.now = st.now) ∧
    (∀ st mode body origin, st.semAvailable ≠ 0 →
        (create_document st mode body origin).2.originCalls = st.originCalls + 1) ∧
    (∀ st mode docId origin, st.semAvailable ≠ 0 →
        (get_cached_response st mode
            (get_cache_key "GET" ("/documents/" ++ docId) none)).1 = none →
        (get_document st mode docId origin).2.originCalls = st.originCalls + 1) := by
  refine ⟨?_, ?_, ?_⟩
  · intro st mode body origin
    unfold create_document
    rw [make_request_non_get (show ("POST" : String) ≠ "GET" by decide) st mode
      "/documents" none origin]
    have hf := origin_phase_frame st mode "POST" "/documents"
      (get_cache_key "POST" "/documents" none) origin
    have hc := hf.2.1 (is_cacheable_of_ne_get (by decide) origin)
    exact ⟨hc.1, hc.2, hf.1⟩
  · intro st mode body origin h
    unfold create_document
    rw [make_request_non_get (show ("POST" : String) ≠ "GET" by decide) st mode
      "/documents" none origin]
    exact (origin_phase_frame st mode "POST" "/documents"
      (get_cache_key "POST" "/documents" none) origin).2.2 h
  · intro st mode docId origin h hmiss
    unfold get_document make_request
    rw [if_pos rfl, get_cached_response_miss hmiss]
    show (origin_phase st mode "GET" ("/documents/" ++ docId)
        (get_cache_key "GET" ("/documents/" ++ docId) none) origin).2.originCalls
      = st.originCalls + 1
    exact (origin_phase_frame st mode "GET" ("/documents/" ++ docId)
      (get_cache_key "GET" ("/documents/" ++ docId) none) origin).2.2 h

/-- Witness for the amended C5 along the concrete create-then-get run:
one origin call for the create, a second one for the get. -/
theorem create_not_cached_witness :
    (createRun.2.memoryCache = baseState.memoryCache ∧
     createRun.2.redisStore = baseState.redisStore ∧
     createRun.2.now = baseState.now) ∧
    createRun.2.originCalls = baseState.originCalls + 1 ∧
    getAfterCreate.2.originCalls = createRun.2.originCalls + 1 :=
  ⟨create_not_cached.1 baseState .absent "\x7b\"title\": \"T\", \"content\": \"C\"\x7d"
      (OriginBehavior.response 201 "" createdDoc),
   create_not_cached.2.1 baseState .absent "\x7b\"title\": \"T\", \"content\": \"C\"\x7d"
      (OriginBehavior.response 201 "" createdDoc) (by decide),
   create_not_cached.2.2 createRun.2 .absent "123"
      (OriginBehavior.response 200 "" createdDoc) (by decide) (by decide)⟩
